import Mathlib

/-!
Verification of the webhook decision core of the Crax backend.

The development shallowly embeds the Python sources:

* `backend/utils.py` — `verify_github_signature` (HMAC-SHA256 webhook
  authentication) and `convert_timestamp_to_iso` (timestamp normalisation);
* `backend/github.py` — `clean_json_response`, `should_post_about_commits`
  (the post-worthiness Judge) and `summarize_commits` (the Summarizer);
* `backend/app.py` — the Supabase-backed helpers (`resolve_user_id`,
  `store_commits`, `should_create_post`, `create_post`) and the
  `github_webhook` orchestrator;
* `backend/main.py` — the variant orchestrator without the private-repository
  policy and without commit storage.

Machine integers are `Nat` with explicit `% 2^32` where the Python code relies
on 32-bit wrapping (inside SHA-256 only; Python's own ints are unbounded, and
the `hashlib`/`hmac` primitives are reimplemented bit-for-bit below).  Byte
strings (`bytes`) are `List Nat` with entries below 256.  Fallible Python code
(raising) is embedded with `Except`.  External collaborators that the sources
call but whose code is out of scope — `datetime.fromisoformat`,
`datetime.fromtimestamp`, `json.loads`, the Anthropic text-generation client
and the Supabase transport — are passed in as explicit function parameters, so
every theorem quantifies over their behaviour.
-/

namespace Crax

/-! ## SHA-256 (embedding of `hashlib.sha256`)

`backend/utils.py` delegates hashing to `hmac.new(..., digestmod=hashlib.sha256)`.
The FIPS 180-4 compression function is reproduced here over `Nat`, reduced
modulo `2^32` at every arithmetic step. -/

/-- Right rotation of a 32-bit word (inputs below `2^32`). -/
def rotr32 (n x : Nat) : Nat := ((x >>> n) ||| (x <<< (32 - n))) % 4294967296

/-- FIPS 180-4 `Ch(x,y,z)`; `¬x` on 32 bits is `x ^^^ 0xffffffff`. -/
def ch32 (x y z : Nat) : Nat := (x &&& y) ^^^ ((x ^^^ 4294967295) &&& z)

/-- FIPS 180-4 `Maj(x,y,z)`. -/
def maj32 (x y z : Nat) : Nat := (x &&& y) ^^^ (x &&& z) ^^^ (y &&& z)

/-- FIPS 180-4 `Σ₀`. -/
def bigSigma0 (x : Nat) : Nat := rotr32 2 x ^^^ rotr32 13 x ^^^ rotr32 22 x

/-- FIPS 180-4 `Σ₁`. -/
def bigSigma1 (x : Nat) : Nat := rotr32 6 x ^^^ rotr32 11 x ^^^ rotr32 25 x

/-- FIPS 180-4 `σ₀`. -/
def smallSigma0 (x : Nat) : Nat := rotr32 7 x ^^^ rotr32 18 x ^^^ (x >>> 3)

/-- FIPS 180-4 `σ₁`. -/
def smallSigma1 (x : Nat) : Nat := rotr32 17 x ^^^ rotr32 19 x ^^^ (x >>> 10)

/-- The 64 SHA-256 round constants. -/
def sha256K : List Nat :=
  [1116352408, 1899447441, 3049323471, 3921009573, 961987163,
   1508970993, 2453635748, 2870763221, 3624381080, 310598401,
   607225278, 1426881987, 1925078388, 2162078206, 2614888103,
   3248222580, 3835390401, 4022224774, 264347078, 604807628,
   770255983, 1249150122, 1555081692, 1996064986, 2554220882,
   2821834349, 2952996808, 3210313671, 3336571891, 3584528711,
   113926993, 338241895, 666307205, 773529912, 1294757372,
   1396182291, 1695183700, 1986661051, 2177026350, 2456956037,
   2730485921, 2820302411, 3259730800, 3345764771, 3516065817,
   3600352804, 4094571909, 275423344, 430227734, 506948616,
   659060556, 883997877, 958139571, 1322822218, 1537002063,
   1747873779, 1955562222, 2024104815, 2227730452, 2361852424,
   2428436474, 2756734187, 3204031479, 3329325298]

/-- The eight SHA-256 working variables. -/
structure Sha256State where
  a : Nat
  b : Nat
  c : Nat
  d : Nat
  e : Nat
  f : Nat
  g : Nat
  h : Nat
deriving Repr, DecidableEq

/-- SHA-256 initial hash value. -/
def sha256H0 : Sha256State :=
  ⟨1779033703, 3144134277, 1013904242, 2773480762,
   1359893119, 2600822924, 528734635, 1541459225⟩

/-- One SHA-256 round, taking the round constant paired with the schedule word. -/
def sha256Round (st : Sha256State) (kw : Nat × Nat) : Sha256State :=
  let t1 := (st.h + bigSigma1 st.e + ch32 st.e st.f st.g + kw.1 + kw.2) % 4294967296
  let t2 := (bigSigma0 st.a + maj32 st.a st.b st.c) % 4294967296
  ⟨(t1 + t2) % 4294967296, st.a, st.b, st.c,
   (st.d + t1) % 4294967296, st.e, st.f, st.g⟩

/-- Extend the 16 block words to the 64-entry message schedule. -/
def sha256Schedule (w16 : List Nat) : List Nat :=
  (List.range 48).foldl
    (fun w _ =>
      let n := w.length
      w ++ [(smallSigma1 (w.getD (n - 2) 0) + w.getD (n - 7) 0 +
             smallSigma0 (w.getD (n - 15) 0) + w.getD (n - 16) 0) % 4294967296])
    w16

/-- Big-endian packing of bytes into 32-bit words (the block fits exactly). -/
def bytesToWords32 : List Nat → List Nat
  | b0 :: b1 :: b2 :: b3 :: rest =>
      (b0 <<< 24 ||| b1 <<< 16 ||| b2 <<< 8 ||| b3) :: bytesToWords32 rest
  | _ => []

/-- Big-endian unpacking of a 32-bit word into four bytes. -/
def word32ToBytes (w : Nat) : List Nat :=
  [(w >>> 24) % 256, (w >>> 16) % 256, (w >>> 8) % 256, w % 256]

/-- Process one 64-byte block. -/
def sha256Block (st : Sha256State) (block : List Nat) : Sha256State :=
  let ws := sha256Schedule (bytesToWords32 block)
  let r := (sha256K.zip ws).foldl sha256Round st
  ⟨(st.a + r.a) % 4294967296, (st.b + r.b) % 4294967296,
   (st.c + r.c) % 4294967296, (st.d + r.d) % 4294967296,
   (st.e + r.e) % 4294967296, (st.f + r.f) % 4294967296,
   (st.g + r.g) % 4294967296, (st.h + r.h) % 4294967296⟩

/-- Split a list into 64-byte chunks; `fuel` bounds the recursion so the
definition stays structural (hence kernel-reducible). -/
def chunks64 : Nat → List Nat → List (List Nat)
  | 0, _ => []
  | _, [] => []
  | fuel + 1, l => l.take 64 :: chunks64 fuel (l.drop 64)

/-- SHA-256 message padding: `0x80`, zeros to 56 mod 64, then the 64-bit
big-endian bit length. -/
def sha256Pad (msg : List Nat) : List Nat :=
  let len := msg.length
  let zeros := (56 + 64 - (len + 1) % 64) % 64
  let bitLen := 8 * len
  msg ++ [0x80] ++ List.replicate zeros 0 ++
    [(bitLen >>> 56) % 256, (bitLen >>> 48) % 256, (bitLen >>> 40) % 256,
     (bitLen >>> 32) % 256, (bitLen >>> 24) % 256, (bitLen >>> 16) % 256,
     (bitLen >>> 8) % 256, bitLen % 256]

/-- SHA-256 of a byte string, as 32 bytes. -/
def sha256 (msg : List Nat) : List Nat :=
  let padded := sha256Pad msg
  let st := (chunks64 (padded.length + 1) padded).foldl sha256Block sha256H0
  word32ToBytes st.a ++ word32ToBytes st.b ++ word32ToBytes st.c ++
  word32ToBytes st.d ++ word32ToBytes st.e ++ word32ToBytes st.f ++
  word32ToBytes st.g ++ word32ToBytes st.h

/-! ## HMAC-SHA256 (embedding of `hmac.new(key, msg, hashlib.sha256)`) -/

/-- RFC 2104 HMAC over SHA-256 (block size 64). -/
def hmacSha256 (key msg : List Nat) : List Nat :=
  let k0 := if 64 < key.length then sha256 key else key
  let kp := k0 ++ List.replicate (64 - k0.length) 0
  sha256 ((kp.map (fun b => b ^^^ 0x5c)) ++
          sha256 ((kp.map (fun b => b ^^^ 0x36)) ++ msg))

/-- Lowercase hex digit. -/
def hexDigit (n : Nat) : Char :=
  Char.ofNat (if n < 10 then 48 + n else 87 + n)

/-- Lowercase hex rendering of a byte string — Python's `.hexdigest()`. -/
def hexOfBytes (l : List Nat) : String :=
  l.foldl (fun s b => (s.push (hexDigit (b / 16))).push (hexDigit (b % 16))) ""

/-! ## `verify_github_signature` (`backend/utils.py`, lines 57–94)

`payload_body` is the raw request body (`bytes`); `webhook_secret` is given by
its UTF-8 encoding (the source calls `webhook_secret.encode('utf-8')`), so the
empty secret string is exactly the empty byte list.  A raised `ValueError` is
`Except.error` carrying the exception message.  `hmac.compare_digest` is a
constant-time string comparison; time is not modelled, so it is equality. -/

def verify_github_signature (payload_body : List Nat) (signature_header : String)
    (webhook_secret : List Nat) : Except String Bool :=
  if webhook_secret = [] then
    .error "GitHub webhook secret is not configured"
  else if signature_header = "" then
    .ok false
  else
    let expected_signature := "sha256=" ++ hexOfBytes (hmacSha256 webhook_secret payload_body)
    .ok (expected_signature == signature_header)

/-! ## `convert_timestamp_to_iso` (`backend/utils.py`, lines 11–54)

The input is `str | int | None`.  The body runs inside
`try: ... except (ValueError, TypeError, OSError): return None`; the embedding
makes the raised exception kinds explicit (`PyErr`) and applies the same
catch.  `datetime.fromisoformat` is modelled by the parse predicate `isoparse`
(its only failure mode on a `str` argument is `ValueError`);
`datetime.fromtimestamp` by `fromtimestamp`, total on the already-validated
range `[0, 4102444800]` (no overflow is possible there on the target
platform); `int(s)` by `pyParseInt` below. -/

/-- Python exception kinds relevant to `convert_timestamp_to_iso`. -/
inductive PyErr where
  | valueError
  | typeError
  | osError
  | overflowError
  | other
deriving Repr, DecidableEq

/-- The `except (ValueError, TypeError, OSError)` clause of the source. -/
def tsCatches : PyErr → Bool
  | .valueError => true
  | .typeError => true
  | .osError => true
  | _ => false

/-- The normalizer's input domain: `str | int | None`. -/
inductive TSInput where
  | null
  | int (n : Int)
  | str (s : String)
deriving Repr, DecidableEq

/-- Digit run of a Python integer literal: digits with single underscores
allowed between digits (`int("1_0") == 10`). -/
def pyIntGo : List Char → Nat → Option Nat
  | [], acc => some acc
  | '_' :: c :: rest, acc =>
      if c.isDigit then pyIntGo rest (acc * 10 + (c.toNat - 48)) else none
  | c :: rest, acc =>
      if c.isDigit then pyIntGo rest (acc * 10 + (c.toNat - 48)) else none

/-- Unsigned digit part of `int(s)`: nonempty, starts with a digit. -/
def pyIntCore : List Char → Option Nat
  | [] => none
  | '_' :: _ => none
  | c :: rest => if c.isDigit then pyIntGo rest (c.toNat - 48) else none

/-- Python `int(s)` on a string: strip whitespace, optional sign, digit run.
Returns `none` where the source raises `ValueError`. -/
def pyParseInt (s : String) : Option Int :=
  match s.trim.toList with
  | '+' :: rest => (pyIntCore rest).map Int.ofNat
  | '-' :: rest => (pyIntCore rest).map (fun n => -(n : Int))
  | cs => (pyIntCore cs).map Int.ofNat

/-- The `try:` body of `convert_timestamp_to_iso` (with the leading
`if timestamp is None: return None` folded in as its early return).
`.error k` marks a raise of exception kind `k` at the corresponding source
line. -/
def convert_timestamp_body (isoparse : String → Bool) (fromtimestamp : Int → String) :
    TSInput → Except PyErr (Option String)
  | .null => .ok none
  | .str s =>
    -- "'T' in timestamp or '-' in timestamp", as membership in the characters
    if s.data.contains 'T' || s.data.contains '-' then
      -- datetime.fromisoformat(timestamp.replace('Z', '+00:00'))
      if isoparse (s.replace "Z" "+00:00") then .ok (some s)
      else .error .valueError
    else
      -- timestamp_int = int(timestamp)
      match pyParseInt s with
      | none => .error .valueError
      | some n =>
        if n < 0 || 4102444800 < n then .ok none
        else .ok (some (fromtimestamp n))
  | .int n =>
    if n < 0 || 4102444800 < n then .ok none
    else .ok (some (fromtimestamp n))

/-- Function `convert_timestamp_to_iso`: the body under its `except` clause.  A result
`.ok r` is a normal return of `r`; `.error e` would be an uncaught exception
escaping the function. -/
def convert_timestamp_to_iso (isoparse : String → Bool) (fromtimestamp : Int → String)
    (timestamp : TSInput) : Except PyErr (Option String) :=
  match convert_timestamp_body isoparse fromtimestamp timestamp with
  | .ok r => .ok r
  | .error e => if tsCatches e then .ok none else .error e

/-! ## JSON values and Python truthiness

`json.loads` is an external collaborator; theorems quantify over a parameter
`jsonLoads : String → Except String JsonVal` (`.error msg` for a raised
`json.JSONDecodeError`).  `JsonVal.obj` carries the dict as an association
list with distinct keys, as produced by `json.loads`. -/

inductive JsonVal where
  | null
  | bool (b : Bool)
  | num (n : Int)
  | str (s : String)
  | arr (l : List JsonVal)
  | obj (l : List (String × JsonVal))
deriving Repr

/-- Python truthiness of a JSON value (`if not x` tests). -/
def pyTruthy : JsonVal → Bool
  | .null => false
  | .bool b => b
  | .num n => n != 0
  | .str s => s != ""
  | .arr l => !l.isEmpty
  | .obj l => !l.isEmpty

/-- Python `dict.get(key, default)` on the association list of a parsed JSON object. -/
def jsonGetD (fields : List (String × JsonVal)) (key : String) (dflt : JsonVal) : JsonVal :=
  match fields.find? (fun p => p.1 = key) with
  | some p => p.2
  | none => dflt

/-- The Python type name of a JSON value, as it appears in an
`AttributeError` message (`json.loads` maps JSON types to these). -/
def pyTypeName : JsonVal → String
  | .null => "NoneType"
  | .bool _ => "bool"
  | .num _ => "int"
  | .str _ => "str"
  | .arr _ => "list"
  | .obj _ => "dict"

/-! ## `clean_json_response` (`backend/github.py`, lines 10–35) -/

def clean_json_response (response_text : String) : String :=
  let cleaned := response_text.trim
  if cleaned.startsWith "```json" then
    let c := cleaned.drop 7
    let c := if c.endsWith "```" then c.dropRight 3 else c
    c.trim
  else if cleaned.startsWith "```" then
    let c := cleaned.drop 3
    let c := if c.endsWith "```" then c.dropRight 3 else c
    c.trim
  else
    cleaned

/-! ## `summarize_commits` (`backend/github.py`, lines 37–103)

The Anthropic client is the collaborator `collab`, taking the commit messages
the prompt is built from and producing either the response text
(`message.content[0].text`) or a raised exception's message.  A missing
`ANTHROPIC_API_KEY` raises `ValueError` before the call; a collaborator
failure is re-raised unchanged (`except Exception as e: ... raise`). -/

def summarize_commits (apiKey : Option String) (collab : List String → Except String String)
    (commit_messages : List String) : Except String String :=
  match apiKey with
  | none => .error "ANTHROPIC_API_KEY environment variable not set"
  | some _ =>
    match collab commit_messages with
    | .error e => .error e
    | .ok text => .ok text.trim

/-! ## `should_post_about_commits` (`backend/github.py`, lines 106–209)

Returns the pair the source returns: `result.get("should_post", False)` and
`result.get("reasoning", "No reasoning provided")`, both raw JSON values.  The
outer `try` covers the collaborator call and the field extraction; its
`except Exception` produces `(False, f"AI evaluation failed: {e}")`.  The
inner `except json.JSONDecodeError` produces
`(False, f"Failed to parse AI response: {e}")`.  When `json.loads` yields a
non-dict, `result.get` raises `AttributeError`, which the outer handler
catches; `attrErrMsg` is that exception's message. -/

def attrErrMsg (v : JsonVal) : String :=
  "'" ++ pyTypeName v ++ "' object has no attribute 'get'"

def should_post_about_commits (apiKey : Option String)
    (collab : List String → Except String String)
    (jsonLoads : String → Except String JsonVal)
    (commit_messages : List String) : Except String (JsonVal × JsonVal) :=
  match apiKey with
  | none => .error "ANTHROPIC_API_KEY environment variable not set"
  | some _ =>
    match collab commit_messages with
    | .error e => .ok (.bool false, .str ("AI evaluation failed: " ++ e))
    | .ok text =>
      let cleaned := clean_json_response text.trim
      match jsonLoads cleaned with
      | .error e => .ok (.bool false, .str ("Failed to parse AI response: " ++ e))
      | .ok (.obj fields) =>
          .ok (jsonGetD fields "should_post" (.bool false),
               jsonGetD fields "reasoning" (.str "No reasoning provided"))
      | .ok v => .ok (.bool false, .str ("AI evaluation failed: " ++ attrErrMsg v))

/-! ## Store state (the Supabase tables the core touches)

`profiles`, `commits` and `posts` are modelled as in-memory tables; row `id`s
are assigned from per-table counters, standing for the database's key
generation.  Supabase write failures (`if not response.data: raise ...`) are
driven by the `insertCommitsOk` / `insertPostOk` oracle flags. -/

structure ProfileRow where
  id : String
  github_url : String
deriving Repr, DecidableEq

structure CommitRow where
  rowId : Nat
  user_id : String
  committed_at : Option String
  pushed_at : String
  commit_id : Option String
  message : String
  repository_id : String
  repository_name : String
  added_files : List String
  removed_files : List String
  modified_files : List String
  post_id : Option Nat
deriving Repr, DecidableEq

structure PostRow where
  id : Nat
  author_id : String
  description : String
  ptype : String
  image_url : Option String
  video_url : Option String
deriving Repr, DecidableEq

structure DB where
  profiles : List ProfileRow
  commits : List CommitRow
  posts : List PostRow
  nextCommitId : Nat
  nextPostId : Nat
deriving Repr, DecidableEq

/-- The external collaborators and failure switches one request sees. -/
structure Oracle where
  insertCommitsOk : Bool
  insertPostOk : Bool
  apiKey : Option String
  judgeCollab : List String → Except String String
  jsonLoads : String → Except String JsonVal
  summarizeCollab : List String → Except String String

/-! ## `resolve_user_id` (`backend/app.py`, lines 100–128) -/

def resolve_user_id (db : DB) (github_username : String) : Option String :=
  let github_url := "https://github.com/" ++ github_username
  match db.profiles.find? (fun p => p.github_url == github_url) with
  | some p => some p.id
  | none => none

/-! ## One commit object of the webhook payload (`payload["commits"][i]`) -/

structure CommitPayload where
  id : Option String
  message : Option String
  timestamp : Option String
  added : List String := []
  removed : List String := []
  modified : List String := []
deriving Repr, DecidableEq

/-! ## `store_commits` (`backend/app.py`, lines 131–173)

`committed_at` is stored as the raw `commit.get("timestamp")`; this variant
performs no timestamp conversion.  On insert failure nothing is written and
`Exception("Failed to store commits")` is raised. -/

/-- The `commit_data` rows built by the `for commit in commits` loop, with the
row ids the insert assigns (consecutive from the table's counter). -/
def store_rows (nextId : Nat) (user_id : String)
    (repository_id repository_name pushed_at : String) :
    List CommitPayload → List CommitRow
  | [] => []
  | c :: cs =>
    { rowId := nextId
      user_id := user_id
      committed_at := c.timestamp
      pushed_at := pushed_at
      commit_id := c.id
      message := c.message.getD ""
      repository_id := repository_id
      repository_name := repository_name
      added_files := c.added
      removed_files := c.removed
      modified_files := c.modified
      post_id := none } ::
    store_rows (nextId + 1) user_id repository_id repository_name pushed_at cs

def store_commits (db : DB) (insertOk : Bool) (user_id : String)
    (commits : List CommitPayload) (repository_id repository_name pushed_at : String) :
    Except String (List Nat × DB) :=
  if insertOk then
    let newRows := store_rows db.nextCommitId user_id repository_id repository_name
      pushed_at commits
    .ok (newRows.map (·.rowId),
         { db with commits := db.commits ++ newRows,
                   nextCommitId := db.nextCommitId + commits.length })
  else
    .error "Failed to store commits"

/-! ## The unattributed-commit window query of `should_create_post`

`.eq(user_id).eq(repository_id).is_("post_id", "null").order("committed_at",
desc=True).limit(10)`: Postgres `DESC` places nulls first by default; rows are
ordered by `committed_at` descending. -/

/-- Lexicographic comparison of character sequences (the text ordering the
database applies to the stored timestamp strings). -/
def charListLe : List Char → List Char → Bool
  | [], _ => true
  | _ :: _, [] => false
  | a :: as, b :: bs =>
    if a.toNat < b.toNat then true
    else if b.toNat < a.toNat then false
    else charListLe as bs

/-- Row `a` precedes `b` in the `committed_at DESC` order (nulls first). -/
def committedAtDescLe (a b : CommitRow) : Bool :=
  match a.committed_at, b.committed_at with
  | none, _ => true
  | some _, none => false
  | some x, some y => charListLe y.data x.data

def insertSorted (le : CommitRow → CommitRow → Bool) (x : CommitRow) :
    List CommitRow → List CommitRow
  | [] => [x]
  | y :: ys => if le x y then x :: y :: ys else y :: insertSorted le x ys

def sortCommits (le : CommitRow → CommitRow → Bool) (l : List CommitRow) : List CommitRow :=
  l.foldr (insertSorted le) []

def fetch_unattributed (db : DB) (user_id repository_id : String) : List CommitRow :=
  (sortCommits committedAtDescLe
    (db.commits.filter (fun r =>
      r.user_id == user_id && r.repository_id == repository_id && r.post_id == none))).take 10

/-! ## `should_create_post` (`backend/app.py`, lines 176–212)

The `try`/`except` around the Judge call converts any raised exception `e`
(including the missing-API-key `ValueError`) into
`(False, f"Error evaluating commits: {e}")`; the function itself never
raises, which the embedding reflects by its non-`Except` result type. -/

def should_create_post (db : DB) (orc : Oracle) (user_id repository_id : String) :
    JsonVal × JsonVal :=
  let rows := fetch_unattributed db user_id repository_id
  if rows.isEmpty then
    (.bool false, .str "No recent commits found")
  else
    let commit_messages := rows.map (·.message)
    match should_post_about_commits orc.apiKey orc.judgeCollab orc.jsonLoads commit_messages with
    | .ok r => r
    | .error e => (.bool false, .str ("Error evaluating commits: " ++ e))

/-! ## `create_post` (`backend/app.py`, lines 215–258)

Inserts the post row, then (best-effort) sets `post_id` on every commit row
whose `id` is in `commit_ids`. -/

def create_post (db : DB) (insertOk : Bool) (author_id description : String)
    (commit_ids : List Nat) : Except String (PostRow × DB) :=
  if insertOk then
    let post : PostRow :=
      { id := db.nextPostId, author_id := author_id, description := description,
        ptype := "push", image_url := none, video_url := none }
    let db1 := { db with posts := db.posts ++ [post], nextPostId := db.nextPostId + 1 }
    let db2 :=
      if commit_ids.isEmpty then db1
      else { db1 with commits := db1.commits.map (fun r =>
               if commit_ids.contains r.rowId then { r with post_id := some post.id } else r) }
    .ok (post, db2)
  else
    .error "Failed to create post"

/-- The `create_post` of `backend/main.py` (lines 92–116): no commit linking. -/
def create_post_nolink (db : DB) (insertOk : Bool) (author_id description : String) :
    Except String (PostRow × DB) :=
  if insertOk then
    let post : PostRow :=
      { id := db.nextPostId, author_id := author_id, description := description,
        ptype := "push", image_url := none, video_url := none }
    .ok (post, { db with posts := db.posts ++ [post], nextPostId := db.nextPostId + 1 })
  else
    .error "Failed to create post"

/-! ## The webhook payload and responses -/

/-- The fields of the parsed JSON payload the orchestrators read.  A `none`
in an `Option` field models the key being absent from the JSON (each read in
the source is a `.get`). -/
structure Payload where
  ref : Option String
  repo_private : Option Bool
  repo_full_name : Option String
  repo_id : Option Nat
  repo_name : Option String
  repo_pushed_at : Option String
  commits : List CommitPayload
  sender_login : Option String
deriving Repr, DecidableEq

/-- Embeds `repository_id = str(repository.get("id", ""))`. -/
def repoIdStr (p : Payload) : String :=
  match p.repo_id with
  | some n => toString n
  | none => ""

/-- Embeds `[commit.get("message", "") for commit in commits if commit.get("message")]`. -/
def push_commit_messages (commits : List CommitPayload) : List String :=
  commits.filterMap (fun c =>
    match c.message with
    | some m => if m = "" then none else some m
    | none => none)

/-- A JSON response body: `message` always present, the other keys present
exactly when the field is `some`.  `ref` is doubly optional because the
source echoes `payload.get("ref")`, which may itself be JSON `null`. -/
structure Resp where
  message : String
  ref : Option (Option String) := none
  repository : Option String := none
  reasoning : Option JsonVal := none
  commits_stored : Option Nat := none
  post_id : Option Nat := none
  content : Option String := none
  commits_processed : Option Nat := none
  commits_linked : Option Nat := none
deriving Repr

/-- Outcome of one request: a 200 JSON body, a raised `HTTPException`, or an
exception escaping the handler (FastAPI's 500). -/
inductive WebhookResult where
  | ok (resp : Resp)
  | httpError (status : Nat) (detail : String)
  | raised (msg : String)

/-! ## `github_webhook` (`backend/app.py`, lines 261–424)

The raw body and the parsed payload are separate inputs (`request.body()` and
`request.json()`); signature verification uses only the former.  The
`try`/`except` around `should_create_post` is vacuous because that function
never raises (see above), so it does not appear. -/

def github_webhook (secret : List Nat) (signature : Option String) (body : List Nat)
    (payload : Payload) (orc : Oracle) (db : DB) : WebhookResult × DB :=
  match signature with
  | none => (.httpError 400 "Missing X-Hub-Signature-256 header", db)
  | some sig =>
    match verify_github_signature body sig secret with
    | .error e => (.raised e, db)
    | .ok false => (.httpError 400 "Invalid signature", db)
    | .ok true =>
      -- is_private = repository.get("private", True)
      let is_private := payload.repo_private.getD true
      if is_private then
        (.ok { message := "Skipped - private repository",
               repository := some (payload.repo_full_name.getD "unknown") }, db)
      else if payload.ref ≠ some "refs/heads/main" then
        (.ok { message := "Skipped - not a push to main branch", ref := some payload.ref }, db)
      else
        let commits := payload.commits
        let repository_id := repoIdStr payload
        let repository_name := payload.repo_name.getD ""
        let pushed_at := payload.repo_pushed_at.getD ""
        if commits.isEmpty then
          (.ok { message := "No commits found in push event" }, db)
        else
          match payload.sender_login with
          | none => (.httpError 400 "No GitHub username found in webhook payload", db)
          | some github_username =>
            if github_username = "" then
              (.httpError 400 "No GitHub username found in webhook payload", db)
            else
              match resolve_user_id db github_username with
              | none =>
                (.httpError 404 ("User not found for GitHub username: " ++ github_username), db)
              | some user_id =>
                match store_commits db orc.insertCommitsOk user_id commits
                        repository_id repository_name pushed_at with
                | .error e => (.httpError 500 ("Failed to store commits: " ++ e), db)
                | .ok (commit_ids, db1) =>
                  let sp := should_create_post db1 orc user_id repository_id
                  if ¬ pyTruthy sp.1 then
                    (.ok { message := "Commits stored but no post created",
                           reasoning := some sp.2,
                           commits_stored := some commit_ids.length }, db1)
                  else
                    let commit_messages := push_commit_messages commits
                    match summarize_commits orc.apiKey orc.summarizeCollab commit_messages with
                    | .error e =>
                      (.httpError 500 ("Failed to generate post summary: " ++ e), db1)
                    | .ok post_content =>
                      match create_post db1 orc.insertPostOk user_id post_content commit_ids with
                      | .error e => (.httpError 500 ("Failed to create post: " ++ e), db1)
                      | .ok (post, db2) =>
                        (.ok { message := "Post created successfully",
                               post_id := some post.id,
                               content := some post_content,
                               commits_processed := some commits.length,
                               commits_linked := some commit_ids.length,
                               reasoning := some sp.2 }, db2)

/-! ## `github_webhook` of `backend/main.py` (lines 119–198)

The variant without the private-repository policy: no commit storage, no
Judge; it summarizes and posts on every accepted push. -/

def main_github_webhook (secret : List Nat) (signature : Option String) (body : List Nat)
    (payload : Payload) (orc : Oracle) (db : DB) : WebhookResult × DB :=
  match signature with
  | none => (.httpError 400 "Missing X-Hub-Signature-256 header", db)
  | some sig =>
    match verify_github_signature body sig secret with
    | .error e => (.raised e, db)
    | .ok false => (.httpError 400 "Invalid signature", db)
    | .ok true =>
      if payload.ref ≠ some "refs/heads/main" then
        (.ok { message := "Skipped - not a push to main branch", ref := some payload.ref }, db)
      else
        let commits := payload.commits
        if commits.isEmpty then
          (.ok { message := "No commits found in push event" }, db)
        else
          let commit_messages := push_commit_messages commits
          if commit_messages.isEmpty then
            (.ok { message := "No valid commit messages found" }, db)
          else
            match payload.sender_login with
            | none => (.httpError 400 "No GitHub username found in webhook payload", db)
            | some github_username =>
              if github_username = "" then
                (.httpError 400 "No GitHub username found in webhook payload", db)
              else
                match resolve_user_id db github_username with
                | none =>
                  (.httpError 404 ("User not found for GitHub username: " ++ github_username), db)
                | some user_id =>
                  match summarize_commits orc.apiKey orc.summarizeCollab commit_messages with
                  | .error e =>
                    (.httpError 500 ("Failed to generate post summary: " ++ e), db)
                  | .ok post_content =>
                    match create_post_nolink db orc.insertPostOk user_id post_content with
                    | .error e => (.httpError 500 ("Failed to create post: " ++ e), db)
                    | .ok (post, db1) =>
                      (.ok { message := "Post created successfully",
                             post_id := some post.id,
                             content := some post_content,
                             commits_processed := some commit_messages.length }, db1)

/-- Reapplication of the normalizer to a non-null normalized result; a null
result stays null (null input yields null output). -/
def renormalize (ip : String → Bool) (ft : Int → String)
    (r : Except PyErr (Option String)) : Except PyErr (Option String) :=
  match r with
  | .ok (some s) => convert_timestamp_to_iso ip ft (.str s)
  | x => x

/-- Table well-formedness: every commit row id is below the id counter. -/
def DB.wf (db : DB) : Prop := ∀ r ∈ db.commits, r.rowId < db.nextCommitId

/-- Concrete fixture: a three-commit push to the designated branch. -/
def c3payload : Payload :=
  { ref := some "refs/heads/main", repo_private := some false,
    repo_full_name := some "dev/r", repo_id := some 42, repo_name := some "r",
    repo_pushed_at := some "2024-01-02T00:00:00Z",
    commits :=
      [{ id := some "c1", message := some "add auth system",
         timestamp := some "2024-01-01T00:00:00Z" },
       { id := some "c2", message := some "add tests",
         timestamp := some "2024-01-01T01:00:00Z" },
       { id := some "c3", message := some "fix auth bug",
         timestamp := some "2024-01-01T02:00:00Z" }],
    sender_login := some "dev" }

/-- Concrete fixture: collaborators where the Judge affirms and the
Summarizer succeeds. -/
def c3orc : Oracle :=
  { insertCommitsOk := true, insertPostOk := true, apiKey := some "k",
    judgeCollab := fun _ => .ok "resp",
    jsonLoads := fun _ => .ok (.obj [("should_post", .bool true),
                                     ("reasoning", .str "significant feature work")]),
    summarizeCollab := fun _ => .ok "shipped auth!" }

/-- Concrete fixture: a store knowing the user `dev`, otherwise empty. -/
def c3db : DB :=
  { profiles := [{ id := "u1", github_url := "https://github.com/dev" }],
    commits := [], posts := [], nextCommitId := 0, nextPostId := 0 }

/-- The fixture store after the push's commits are inserted. -/
def c3db1 : DB :=
  { profiles := [{ id := "u1", github_url := "https://github.com/dev" }],
    commits := store_rows 0 "u1" (repoIdStr c3payload) (c3payload.repo_name.getD "")
      (c3payload.repo_pushed_at.getD "") c3payload.commits,
    posts := [], nextCommitId := c3payload.commits.length, nextPostId := 0 }

/-- The row ids the fixture insert returns. -/
def c3ids : List Nat :=
  (store_rows 0 "u1" (repoIdStr c3payload) (c3payload.repo_name.getD "")
    (c3payload.repo_pushed_at.getD "") c3payload.commits).map (·.rowId)

/-! ## Helper lemmas -/

/-- A string beginning with `"sha256="` is not empty. -/
theorem sha256_prefix_ne_empty (s : String) : ("sha256=" ++ s) ≠ "" := by
  intro h
  have hl := congrArg String.length h
  rw [String.length_append] at hl
  have h7 : "sha256=".length = 7 := rfl
  have h0 : "".length = 0 := rfl
  omega

/-- The `try:` body of the timestamp normalizer only ever raises `ValueError`. -/
theorem convert_body_error_kind (ip : String → Bool) (ft : Int → String) (v : TSInput)
    (e : PyErr) (h : convert_timestamp_body ip ft v = .error e) : e = PyErr.valueError := by
  cases v with
  | null =>
    simp only [convert_timestamp_body] at h
    exact Except.noConfusion h
  | int n =>
    simp only [convert_timestamp_body] at h
    split at h <;> exact Except.noConfusion h
  | str s =>
    simp only [convert_timestamp_body] at h
    split at h
    · split at h
      · exact Except.noConfusion h
      · exact (Except.error.inj h).symm
    · split at h
      · exact (Except.error.inj h).symm
      · split at h <;> exact Except.noConfusion h

/-- A correctly signed payload passes verification (secret nonempty). -/
theorem verify_genuine (body secret : List Nat) (hs : secret ≠ []) :
    verify_github_signature body
      ("sha256=" ++ hexOfBytes (hmacSha256 secret body)) secret = .ok true := by
  simp only [verify_github_signature, if_neg hs, if_neg (sha256_prefix_ne_empty _)]
  simp

theorem isEmpty_false_of_ne_nil {α : Type} {l : List α} (h : l ≠ []) :
    l.isEmpty = false := by
  cases l <;> simp_all

theorem store_rows_length (n : Nat) (uid rid rname pat : String)
    (cs : List CommitPayload) :
    (store_rows n uid rid rname pat cs).length = cs.length := by
  induction cs generalizing n with
  | nil => rfl
  | cons c cs ih => simp [store_rows, ih]

theorem store_rows_post_id (n : Nat) (uid rid rname pat : String)
    (cs : List CommitPayload) :
    ∀ r ∈ store_rows n uid rid rname pat cs, r.post_id = none := by
  induction cs generalizing n with
  | nil => simp [store_rows]
  | cons c cs ih =>
    intro r hr
    rcases (by simpa [store_rows] using hr : _ ∨ r ∈ store_rows (n + 1) uid rid rname pat cs)
      with h | h
    · subst h; rfl
    · exact ih (n + 1) r h

theorem store_rows_rowId_ge (n : Nat) (uid rid rname pat : String)
    (cs : List CommitPayload) :
    ∀ r ∈ store_rows n uid rid rname pat cs, n ≤ r.rowId := by
  induction cs generalizing n with
  | nil => simp [store_rows]
  | cons c cs ih =>
    intro r hr
    rcases (by simpa [store_rows] using hr : _ ∨ r ∈ store_rows (n + 1) uid rid rname pat cs)
      with h | h
    · subst h; exact le_refl n
    · exact Nat.le_of_succ_le (ih (n + 1) r h)

theorem store_commits_spec (db : DB) (flag : Bool) (uid : String)
    (commits : List CommitPayload) (rid rname pat : String) (ids : List Nat) (db1 : DB)
    (h : store_commits db flag uid commits rid rname pat = .ok (ids, db1)) :
    flag = true ∧
    ids = (store_rows db.nextCommitId uid rid rname pat commits).map (·.rowId) ∧
    db1 = { db with
            commits := db.commits ++ store_rows db.nextCommitId uid rid rname pat commits,
            nextCommitId := db.nextCommitId + commits.length } := by
  cases flag with
  | false => simp [store_commits] at h
  | true =>
    simp only [store_commits, if_true] at h
    have hp := Except.ok.inj h
    exact ⟨rfl, (congrArg Prod.fst hp).symm, (congrArg Prod.snd hp).symm⟩

theorem create_post_spec (db : DB) (flag : Bool) (author desc : String)
    (ids : List Nat) (post : PostRow) (db2 : DB)
    (h : create_post db flag author desc ids = .ok (post, db2)) :
    flag = true ∧
    post = { id := db.nextPostId, author_id := author, description := desc,
             ptype := "push", image_url := none, video_url := none } ∧
    db2.profiles = db.profiles ∧
    db2.posts = db.posts ++ [post] ∧
    db2.nextPostId = db.nextPostId + 1 ∧
    db2.nextCommitId = db.nextCommitId ∧
    db2.commits = (if ids.isEmpty then db.commits
                   else db.commits.map (fun r =>
                     if ids.contains r.rowId then { r with post_id := some post.id }
                     else r)) := by
  cases flag with
  | false => simp [create_post] at h
  | true =>
    simp only [create_post, if_true] at h
    have hp := Except.ok.inj h
    have hpost := congrArg Prod.fst hp
    have hdb := congrArg Prod.snd hp
    dsimp only at hpost hdb
    subst hpost
    subst hdb
    refine ⟨rfl, rfl, ?_, ?_, ?_, ?_, ?_⟩ <;>
      cases hie : ids.isEmpty <;>
      simp only [hie, if_true, if_false, Bool.false_eq_true]

theorem map_id_of_mem {α : Type} {f : α → α} {l : List α}
    (h : ∀ x ∈ l, f x = x) : l.map f = l := by
  induction l with
  | nil => rfl
  | cons a l ih =>
    simp only [List.map_cons, h a (List.mem_cons_self a l)]
    rw [ih (fun x hx => h x (List.mem_cons_of_mem a hx))]

theorem contains_true_iff_mem {l : List Nat} {n : Nat} :
    l.contains n = true ↔ n ∈ l := by
  simp [List.contains, List.elem_iff]

end Crax

namespace Crax

/-- Claim C1: for every payload body, signature header and secret, `verify`
raises the configuration error on an empty secret; returns `false` on an
empty header; otherwise returns `true` iff the header equals `"sha256="`
followed by the lowercase hex HMAC-SHA256 digest of the raw body keyed by the
secret — in particular the genuine signature always verifies. -/
theorem signature_verification_correct :
    (∀ (body : List Nat) (header : String),
      verify_github_signature body header [] =
        .error "GitHub webhook secret is not configured") ∧
    (∀ (body secret : List Nat), secret ≠ [] →
      verify_github_signature body "" secret = .ok false) ∧
    (∀ (body secret : List Nat) (header : String), secret ≠ [] → header ≠ "" →
      (verify_github_signature body header secret = .ok true ↔
        header = "sha256=" ++ hexOfBytes (hmacSha256 secret body))) ∧
    (∀ (body secret : List Nat), secret ≠ [] →
      verify_github_signature body
        ("sha256=" ++ hexOfBytes (hmacSha256 secret body)) secret = .ok true) := by
  have h3 : ∀ (body secret : List Nat) (header : String), secret ≠ [] → header ≠ "" →
      (verify_github_signature body header secret = .ok true ↔
        header = "sha256=" ++ hexOfBytes (hmacSha256 secret body)) := by
    intro body secret header hs hh
    simp only [verify_github_signature, if_neg hs, if_neg hh]
    constructor
    · intro h
      have := Except.ok.inj h
      exact (eq_of_beq this).symm
    · intro h
      subst h
      simp
  refine ⟨?_, ?_, h3, ?_⟩
  · intro body header
    simp [verify_github_signature]
  · intro body secret hs
    simp [verify_github_signature, hs]
  · intro body secret hs
    exact (h3 body secret _ hs (sha256_prefix_ne_empty _)).mpr rfl

/-- Witness for C1: a concrete correctly signed body verifies. -/
theorem signature_verification_correct_witness :
    verify_github_signature [1, 2, 3]
      ("sha256=" ++ hexOfBytes (hmacSha256 [107] [1, 2, 3])) [107] = .ok true :=
  signature_verification_correct.2.2.2 [1, 2, 3] [107] (by decide)

/-- Claim C5: the timestamp normalizer maps null to null, rejects Unix-epoch
inputs outside `[0, 4102444800]` by returning null (`-1` and `4102444801` in
particular), and accepts every input inside the bound (`0` in particular),
returning the rendered timestamp. -/
theorem timestamp_bounds_correct :
    ∀ (isoparse : String → Bool) (fromtimestamp : Int → String),
      convert_timestamp_to_iso isoparse fromtimestamp .null = .ok none ∧
      convert_timestamp_to_iso isoparse fromtimestamp (.int (-1)) = .ok none ∧
      convert_timestamp_to_iso isoparse fromtimestamp (.int 4102444801) = .ok none ∧
      convert_timestamp_to_iso isoparse fromtimestamp (.int 0) =
        .ok (some (fromtimestamp 0)) ∧
      (∀ n : Int, (n < 0 ∨ 4102444800 < n) →
        convert_timestamp_to_iso isoparse fromtimestamp (.int n) = .ok none) ∧
      (∀ n : Int, 0 ≤ n → n ≤ 4102444800 →
        convert_timestamp_to_iso isoparse fromtimestamp (.int n) =
          .ok (some (fromtimestamp n))) := by
  intro ip ft
  have hlo : ∀ n : Int, (n < 0 ∨ 4102444800 < n) →
      convert_timestamp_to_iso ip ft (.int n) = .ok none := by
    intro n hn
    rcases hn with h | h <;>
      simp [convert_timestamp_to_iso, convert_timestamp_body, h]
  have hhi : ∀ n : Int, 0 ≤ n → n ≤ 4102444800 →
      convert_timestamp_to_iso ip ft (.int n) = .ok (some (ft n)) := by
    intro n h1 h2
    have c1 : ¬ (n < 0) := by omega
    have c2 : ¬ ((4102444800 : Int) < n) := by omega
    simp [convert_timestamp_to_iso, convert_timestamp_body, c1, c2]
  exact ⟨rfl, hlo (-1) (by omega), hlo 4102444801 (by omega),
         hhi 0 (by omega) (by omega), hlo, hhi⟩

/-- Witness for C5: the bound checks at concrete inputs `-1` and `5`. -/
theorem timestamp_bounds_correct_witness :
    convert_timestamp_to_iso (fun _ => true) (fun _ => "ts") (.int (-1)) = .ok none ∧
    convert_timestamp_to_iso (fun _ => true) (fun _ => "ts") (.int 5) = .ok (some "ts") :=
  ⟨(timestamp_bounds_correct (fun _ => true) (fun _ => "ts")).2.1,
   (timestamp_bounds_correct (fun _ => true) (fun _ => "ts")).2.2.2.2.2 5
     (by omega) (by omega)⟩

/-- Claim C6: for every input (integer, string, or null, including malformed
strings) and every behaviour of the parsing collaborators, the timestamp
normalizer returns normally — no exception escapes (every raise inside the
`try:` body is of a caught kind). -/
theorem timestamp_never_raises :
    ∀ (isoparse : String → Bool) (fromtimestamp : Int → String) (v : TSInput),
      ∃ r : Option String,
        convert_timestamp_to_iso isoparse fromtimestamp v = .ok r := by
  intro ip ft v
  unfold convert_timestamp_to_iso
  cases hb : convert_timestamp_body ip ft v with
  | ok r => exact ⟨r, rfl⟩
  | error e =>
    have := convert_body_error_kind ip ft v e hb
    subst this
    exact ⟨none, rfl⟩

/-- Claim C7: the normalizer is idempotent on canonical input — a textual
input in ISO-like form (containing `'T'` or `'-'`) that parses is returned
unchanged, one that fails to parse yields null, and renormalizing the result
changes nothing. -/
theorem timestamp_idempotent :
    ∀ (isoparse : String → Bool) (fromtimestamp : Int → String) (s : String),
      ('T' ∈ s.data ∨ '-' ∈ s.data) →
      (isoparse (s.replace "Z" "+00:00") = true →
        convert_timestamp_to_iso isoparse fromtimestamp (.str s) = .ok (some s)) ∧
      (isoparse (s.replace "Z" "+00:00") = false →
        convert_timestamp_to_iso isoparse fromtimestamp (.str s) = .ok none) ∧
      renormalize isoparse fromtimestamp
          (convert_timestamp_to_iso isoparse fromtimestamp (.str s)) =
        convert_timestamp_to_iso isoparse fromtimestamp (.str s) := by
  intro ip ft s hc
  have hcb : (s.data.contains 'T' || s.data.contains '-') = true := by
    rcases hc with h | h <;> simp [List.contains, List.elem_iff, h]
  have hpos : ∀ hp : ip (s.replace "Z" "+00:00") = true,
      convert_timestamp_to_iso ip ft (.str s) = .ok (some s) := by
    intro hp
    have hb : convert_timestamp_body ip ft (.str s) = .ok (some s) := by
      simp only [convert_timestamp_body]
      rw [if_pos hcb, if_pos hp]
    simp [convert_timestamp_to_iso, hb]
  have hneg : ∀ hp : ip (s.replace "Z" "+00:00") = false,
      convert_timestamp_to_iso ip ft (.str s) = .ok none := by
    intro hp
    have hb : convert_timestamp_body ip ft (.str s) = .error .valueError := by
      simp only [convert_timestamp_body]
      rw [if_pos hcb, if_neg (by simp [hp])]
    simp [convert_timestamp_to_iso, hb, tsCatches]
  refine ⟨hpos, hneg, ?_⟩
  cases hp : ip (s.replace "Z" "+00:00") with
  | true => rw [hpos hp]; simpa [renormalize] using hpos hp
  | false => rw [hneg hp]; simp [renormalize]

/-- Witness for C7: a concrete canonical timestamp is a fixed point. -/
theorem timestamp_idempotent_witness :
    convert_timestamp_to_iso (fun _ => true) (fun _ => "ts")
      (.str "1970-01-01T00:00:00") = .ok (some "1970-01-01T00:00:00") :=
  (timestamp_idempotent (fun _ => true) (fun _ => "ts") "1970-01-01T00:00:00"
    (Or.inl (by decide))).1 rfl

/-- Claim C2: whenever the text-generation collaborator call raises, or its
response cannot be parsed into the two expected fields (JSON decode error, or
a non-object making the field extraction raise), the Judge returns
`should_post = false` with a reasoning string describing the failure; and the
orchestrator-level wrapper `should_create_post` converts even a raised Judge
exception into `(false, failure reasoning)` instead of propagating it. -/
theorem judge_fail_closed :
    (∀ (k : String) (collab : List String → Except String String)
       (jsonLoads : String → Except String JsonVal) (msgs : List String) (e : String),
      collab msgs = .error e →
      should_post_about_commits (some k) collab jsonLoads msgs =
        .ok (.bool false, .str ("AI evaluation failed: " ++ e))) ∧
    (∀ (k : String) (collab : List String → Except String String)
       (jsonLoads : String → Except String JsonVal) (msgs : List String) (t e : String),
      collab msgs = .ok t →
      jsonLoads (clean_json_response t.trim) = .error e →
      should_post_about_commits (some k) collab jsonLoads msgs =
        .ok (.bool false, .str ("Failed to parse AI response: " ++ e))) ∧
    (∀ (k : String) (collab : List String → Except String String)
       (jsonLoads : String → Except String JsonVal) (msgs : List String)
       (t : String) (v : JsonVal),
      collab msgs = .ok t →
      jsonLoads (clean_json_response t.trim) = .ok v →
      (∀ fields, v ≠ .obj fields) →
      should_post_about_commits (some k) collab jsonLoads msgs =
        .ok (.bool false, .str ("AI evaluation failed: " ++ attrErrMsg v))) ∧
    (∀ (db : DB) (orc : Oracle) (uid rid : String) (e : String),
      should_post_about_commits orc.apiKey orc.judgeCollab orc.jsonLoads
        ((fetch_unattributed db uid rid).map (·.message)) = .error e →
      fetch_unattributed db uid rid ≠ [] →
      should_create_post db orc uid rid =
        (.bool false, .str ("Error evaluating commits: " ++ e))) := by
  refine ⟨?_, ?_, ?_, ?_⟩
  · intro k collab jsonLoads msgs e h
    simp [should_post_about_commits, h]
  · intro k collab jsonLoads msgs t e h1 h2
    simp [should_post_about_commits, h1, h2]
  · intro k collab jsonLoads msgs t v h1 h2 hno
    cases v with
    | obj fields => exact absurd rfl (hno fields)
    | null => simp [should_post_about_commits, h1, h2]
    | bool b => simp [should_post_about_commits, h1, h2]
    | num n => simp [should_post_about_commits, h1, h2]
    | str s => simp [should_post_about_commits, h1, h2]
    | arr l => simp [should_post_about_commits, h1, h2]
  · intro db orc uid rid e hj hne
    simp [should_create_post, isEmpty_false_of_ne_nil hne, hj]

/-- Witness for C2: a collaborator that raises `"boom"` yields the fail-closed
default with the failure described. -/
theorem judge_fail_closed_witness :
    should_post_about_commits (some "k") (fun _ => .error "boom")
      (fun _ => .error "p") ["fix typo"] =
      .ok (.bool false, .str ("AI evaluation failed: " ++ "boom")) :=
  judge_fail_closed.1 "k" (fun _ => .error "boom") (fun _ => .error "p")
    ["fix typo"] "boom" rfl

/-- Claim C9: an authenticated push (public repository, designated branch,
nonempty commits, sender login present) whose sender login does not resolve
to an internal user id ends with a 404 not-found error and leaves the store
untouched — no commits stored, no posts created. -/
theorem unknown_sender_404 :
    ∀ (secret body : List Nat) (sig : String) (payload : Payload) (orc : Oracle)
      (db : DB) (u : String),
      verify_github_signature body sig secret = .ok true →
      payload.repo_private = some false →
      payload.ref = some "refs/heads/main" →
      payload.commits ≠ [] →
      payload.sender_login = some u →
      u ≠ "" →
      resolve_user_id db u = none →
      github_webhook secret (some sig) body payload orc db =
        (.httpError 404 ("User not found for GitHub username: " ++ u), db) := by
  intro secret body sig payload orc db u hver hpriv href hcom hlog hu hres
  simp [github_webhook, hver, hpriv, href, isEmpty_false_of_ne_nil hcom, hlog, hu, hres]

/-- Witness for C9: a concrete signed push from the unknown login `"ghost"`
against an empty profile table. -/
theorem unknown_sender_404_witness :
    github_webhook [107] (some ("sha256=" ++ hexOfBytes (hmacSha256 [107] []))) []
      { ref := some "refs/heads/main", repo_private := some false,
        repo_full_name := none, repo_id := none, repo_name := none,
        repo_pushed_at := none,
        commits := [{ id := some "c1", message := some "fix", timestamp := none }],
        sender_login := some "ghost" }
      { insertCommitsOk := true, insertPostOk := true, apiKey := none,
        judgeCollab := fun _ => .error "x", jsonLoads := fun _ => .error "x",
        summarizeCollab := fun _ => .error "x" }
      { profiles := [], commits := [], posts := [], nextCommitId := 0, nextPostId := 0 } =
      (.httpError 404 ("User not found for GitHub username: " ++ "ghost"),
       { profiles := [], commits := [], posts := [], nextCommitId := 0, nextPostId := 0 }) :=
  unknown_sender_404 [107] [] _ _ _ _ "ghost"
    (verify_genuine [] [107] (by decide)) rfl rfl (by simp) rfl (by decide) rfl

/-- Claim C10: when the payload's repository object lacks the `private` field,
the flag defaults to true and the orchestrator with the private-repository
policy skips before any identity resolution, commit storage or post creation;
the store state is unchanged. -/
theorem private_default_skip :
    ∀ (secret body : List Nat) (sig : String) (payload : Payload) (orc : Oracle) (db : DB),
      verify_github_signature body sig secret = .ok true →
      payload.repo_private = none →
      github_webhook secret (some sig) body payload orc db =
        (.ok { message := "Skipped - private repository",
               repository := some (payload.repo_full_name.getD "unknown") }, db) := by
  intro secret body sig payload orc db hver hpriv
  simp [github_webhook, hver, hpriv]

/-- Witness for C10: a concrete signed push whose repository object has no
`private` field is skipped with the state unchanged. -/
theorem private_default_skip_witness :
    github_webhook [107] (some ("sha256=" ++ hexOfBytes (hmacSha256 [107] []))) []
      { ref := some "refs/heads/main", repo_private := none, repo_full_name := none,
        repo_id := none, repo_name := none, repo_pushed_at := none, commits := [],
        sender_login := none }
      { insertCommitsOk := true, insertPostOk := true, apiKey := none,
        judgeCollab := fun _ => .error "x", jsonLoads := fun _ => .error "x",
        summarizeCollab := fun _ => .error "x" }
      { profiles := [], commits := [], posts := [], nextCommitId := 0, nextPostId := 0 } =
      (.ok { message := "Skipped - private repository", repository := some "unknown" },
       { profiles := [], commits := [], posts := [], nextCommitId := 0, nextPostId := 0 }) :=
  private_default_skip [107] [] _ _ _ _ (verify_genuine [] [107] (by decide)) rfl

/-- Claim C4: an authenticated push (public repository, designated branch,
nonempty commits, resolvable sender) whose commits are stored and judged
negatively ends with the 200 stored-but-no-post response; no post row is
created and every newly stored commit row keeps `post_id` null, available for
later pushes. -/
theorem negative_judgment_stores_only :
    ∀ (secret body : List Nat) (sig : String) (payload : Payload) (orc : Oracle)
      (db db1 : DB) (u uid : String) (ids : List Nat),
      verify_github_signature body sig secret = .ok true →
      payload.repo_private = some false →
      payload.ref = some "refs/heads/main" →
      payload.commits ≠ [] →
      payload.sender_login = some u →
      u ≠ "" →
      resolve_user_id db u = some uid →
      store_commits db orc.insertCommitsOk uid payload.commits (repoIdStr payload)
        (payload.repo_name.getD "") (payload.repo_pushed_at.getD "") = .ok (ids, db1) →
      pyTruthy (should_create_post db1 orc uid (repoIdStr payload)).1 = false →
      github_webhook secret (some sig) body payload orc db =
        (.ok { message := "Commits stored but no post created",
               reasoning := some (should_create_post db1 orc uid (repoIdStr payload)).2,
               commits_stored := some ids.length }, db1) ∧
      db1.posts = db.posts ∧
      db1.commits.length = db.commits.length + payload.commits.length ∧
      db1.commits.take db.commits.length = db.commits ∧
      (∀ r ∈ db1.commits.drop db.commits.length, r.post_id = none) := by
  intro secret body sig payload orc db db1 u uid ids
    hver hpriv href hcom hlog hu hres hstore hjudge
  obtain ⟨hflag, hids, hdb1⟩ := store_commits_spec _ _ _ _ _ _ _ _ _ hstore
  refine ⟨?_, ?_, ?_, ?_, ?_⟩
  · simp [github_webhook, hver, hpriv, href, isEmpty_false_of_ne_nil hcom, hlog, hu,
      hres, hstore, hjudge]
  · rw [hdb1]
  · rw [hdb1]
    simp [store_rows_length]
  · rw [hdb1]
    simp [List.take_left]
  · rw [hdb1]
    simp only [List.drop_left]
    exact store_rows_post_id _ _ _ _ _ _

/-- Witness for C4: a concrete signed single-commit push from a known user
whose Judge collaborator fails (hence decides negatively) stores the commit
and creates no post. -/
theorem negative_judgment_stores_only_witness :
    github_webhook [107] (some ("sha256=" ++ hexOfBytes (hmacSha256 [107] []))) []
      { ref := some "refs/heads/main", repo_private := some false,
        repo_full_name := some "u/r", repo_id := some 42, repo_name := some "r",
        repo_pushed_at := some "2024-01-02T00:00:00Z",
        commits := [{ id := some "c1", message := some "fix typo",
                      timestamp := some "2024-01-01T00:00:00Z" }],
        sender_login := some "dev" }
      { insertCommitsOk := true, insertPostOk := true, apiKey := some "k",
        judgeCollab := fun _ => .error "nope", jsonLoads := fun _ => .error "p",
        summarizeCollab := fun _ => .error "x" }
      { profiles := [{ id := "u1", github_url := "https://github.com/dev" }],
        commits := [], posts := [], nextCommitId := 0, nextPostId := 0 } =
      (.ok { message := "Commits stored but no post created",
             reasoning := some (should_create_post
               { profiles := [{ id := "u1", github_url := "https://github.com/dev" }],
                 commits := [] ++ store_rows 0 "u1" "42" "r" "2024-01-02T00:00:00Z"
                   [{ id := some "c1", message := some "fix typo",
                      timestamp := some "2024-01-01T00:00:00Z" }],
                 posts := [], nextCommitId := 0 + 1, nextPostId := 0 }
               { insertCommitsOk := true, insertPostOk := true, apiKey := some "k",
                 judgeCollab := fun _ => .error "nope", jsonLoads := fun _ => .error "p",
                 summarizeCollab := fun _ => .error "x" } "u1" "42").2,
             commits_stored := some ((store_rows 0 "u1" "42" "r" "2024-01-02T00:00:00Z"
               [{ id := some "c1", message := some "fix typo",
                  timestamp := some "2024-01-01T00:00:00Z" }]).map (·.rowId)).length },
       { profiles := [{ id := "u1", github_url := "https://github.com/dev" }],
         commits := [] ++ store_rows 0 "u1" "42" "r" "2024-01-02T00:00:00Z"
           [{ id := some "c1", message := some "fix typo",
              timestamp := some "2024-01-01T00:00:00Z" }],
         posts := [], nextCommitId := 0 + 1, nextPostId := 0 }) :=
  (negative_judgment_stores_only [107] [] _ _ _ _ _ "dev" "u1" _
    (verify_genuine [] [107] (by decide)) (by rfl) (by rfl) (by simp) (by rfl)
    (by decide) (by rfl) (by rfl) (by rfl)).1

/-- Claim C3: an authenticated push (public repository, designated branch,
nonempty commits, resolvable sender) whose commits are stored and judged
affirmatively creates exactly one post row whose content is the summary of
the current push's commit messages; every commit row newly stored for this
push gets its `post_id` set to the created post's id; and the response
carries the `post_id` and the generated content. -/
theorem affirmative_creates_post :
    ∀ (secret body : List Nat) (sig : String) (payload : Payload) (orc : Oracle)
      (db db1 : DB) (u uid : String) (ids : List Nat) (content : String),
      DB.wf db →
      verify_github_signature body sig secret = .ok true →
      payload.repo_private = some false →
      payload.ref = some "refs/heads/main" →
      payload.commits ≠ [] →
      payload.sender_login = some u →
      u ≠ "" →
      resolve_user_id db u = some uid →
      store_commits db orc.insertCommitsOk uid payload.commits (repoIdStr payload)
        (payload.repo_name.getD "") (payload.repo_pushed_at.getD "") = .ok (ids, db1) →
      pyTruthy (should_create_post db1 orc uid (repoIdStr payload)).1 = true →
      summarize_commits orc.apiKey orc.summarizeCollab
        (push_commit_messages payload.commits) = .ok content →
      orc.insertPostOk = true →
      ∃ db2 : DB,
        github_webhook secret (some sig) body payload orc db =
          (.ok { message := "Post created successfully",
                 post_id := some db.nextPostId,
                 content := some content,
                 commits_processed := some payload.commits.length,
                 commits_linked := some ids.length,
                 reasoning := some (should_create_post db1 orc uid (repoIdStr payload)).2 },
           db2) ∧
        db2.posts = db.posts ++
          [{ id := db.nextPostId, author_id := uid, description := content,
             ptype := "push", image_url := none, video_url := none }] ∧
        db2.commits.length = db.commits.length + payload.commits.length ∧
        db2.commits.take db.commits.length = db.commits ∧
        (∀ r ∈ db2.commits.drop db.commits.length, r.post_id = some db.nextPostId) := by
  intro secret body sig payload orc db db1 u uid ids content
    hwf hver hpriv href hcom hlog hu hres hstore hjudge hsum hpok
  obtain ⟨hflag, hids, hdb1⟩ := store_commits_spec _ _ _ _ _ _ _ _ _ hstore
  have hrlen := store_rows_length db.nextCommitId uid (repoIdStr payload)
    (payload.repo_name.getD "") (payload.repo_pushed_at.getD "") payload.commits
  have hidsne : ids.isEmpty = false := by
    rw [hids]
    apply isEmpty_false_of_ne_nil
    intro hmap
    have h0 := congrArg List.length hmap
    simp [hrlen] at h0
    exact hcom h0
  have hpid : db1.nextPostId = db.nextPostId := by rw [hdb1]
  refine ⟨{ profiles := db1.profiles,
            commits := db1.commits.map (fun r =>
              if ids.contains r.rowId then { r with post_id := some db.nextPostId }
              else r),
            posts := db1.posts ++
              [{ id := db.nextPostId, author_id := uid, description := content,
                 ptype := "push", image_url := none, video_url := none }],
            nextCommitId := db1.nextCommitId,
            nextPostId := db1.nextPostId + 1 }, ?_, ?_, ?_, ?_, ?_⟩
  · have hcp : create_post db1 orc.insertPostOk uid content ids =
        .ok ({ id := db.nextPostId, author_id := uid, description := content,
               ptype := "push", image_url := none, video_url := none },
             { profiles := db1.profiles,
               commits := db1.commits.map (fun r =>
                 if ids.contains r.rowId then { r with post_id := some db.nextPostId }
                 else r),
               posts := db1.posts ++
                 [{ id := db.nextPostId, author_id := uid, description := content,
                    ptype := "push", image_url := none, video_url := none }],
               nextCommitId := db1.nextCommitId,
               nextPostId := db1.nextPostId + 1 }) := by
      rw [hpok]
      simp [create_post, hidsne, hpid]
    simp [github_webhook, hver, hpriv, href, isEmpty_false_of_ne_nil hcom, hlog, hu,
      hres, hstore, hjudge, hsum, hcp]
  · simp only
    rw [hdb1]
  · simp only [List.length_map]
    rw [hdb1]
    simp [hrlen]
  · simp only
    rw [hdb1]
    simp only [List.map_append]
    have hold : db.commits.map (fun r =>
        if ids.contains r.rowId then { r with post_id := some db.nextPostId }
        else r) = db.commits := by
      apply map_id_of_mem
      intro r hr
      have h1 : r.rowId < db.nextCommitId := hwf r hr
      have h2 : ids.contains r.rowId = false := by
        cases hcont : ids.contains r.rowId with
        | false => rfl
        | true =>
          exfalso
          have hmem := contains_true_iff_mem.mp hcont
          rw [hids] at hmem
          obtain ⟨row, hrow, hr2⟩ := List.mem_map.mp hmem
          have := store_rows_rowId_ge db.nextCommitId uid (repoIdStr payload)
            (payload.repo_name.getD "") (payload.repo_pushed_at.getD "")
            payload.commits row hrow
          omega
      simp only [h2, Bool.false_eq_true, if_false]
    rw [hold]
    have hlen2 : (db.commits).length = db.commits.length := rfl
    simp [List.take_left]
  · simp only
    rw [hdb1]
    simp only [List.map_append]
    have hold : db.commits.map (fun r =>
        if ids.contains r.rowId then { r with post_id := some db.nextPostId }
        else r) = db.commits := by
      apply map_id_of_mem
      intro r hr
      have h1 : r.rowId < db.nextCommitId := hwf r hr
      have h2 : ids.contains r.rowId = false := by
        cases hcont : ids.contains r.rowId with
        | false => rfl
        | true =>
          exfalso
          have hmem := contains_true_iff_mem.mp hcont
          rw [hids] at hmem
          obtain ⟨row, hrow, hr2⟩ := List.mem_map.mp hmem
          have := store_rows_rowId_ge db.nextCommitId uid (repoIdStr payload)
            (payload.repo_name.getD "") (payload.repo_pushed_at.getD "")
            payload.commits row hrow
          omega
      simp only [h2, Bool.false_eq_true, if_false]
    rw [hold]
    simp only [List.drop_left]
    intro r hr
    obtain ⟨row, hrow, hr2⟩ := List.mem_map.mp hr
    have hmem : row.rowId ∈ ids := by
      rw [hids]
      exact List.mem_map_of_mem _ hrow
    have hcont : ids.contains row.rowId = true := contains_true_iff_mem.mpr hmem
    rw [← hr2]
    simp only [hcont, if_true]

/-- Witness for C3: the concrete three-commit push with an affirming Judge
creates one post whose content is the current push's summary and links the
new commit rows to it. -/
theorem affirmative_creates_post_witness :
    ∃ db2 : DB,
      github_webhook [107] (some ("sha256=" ++ hexOfBytes (hmacSha256 [107] []))) []
        c3payload c3orc c3db =
        (.ok { message := "Post created successfully",
               post_id := some c3db.nextPostId,
               content := some ("shipped auth!".trim),
               commits_processed := some c3payload.commits.length,
               commits_linked := some c3ids.length,
               reasoning := some (should_create_post c3db1 c3orc "u1"
                 (repoIdStr c3payload)).2 },
         db2) ∧
      db2.posts = c3db.posts ++
        [{ id := c3db.nextPostId, author_id := "u1",
           description := "shipped auth!".trim, ptype := "push",
           image_url := none, video_url := none }] ∧
      db2.commits.length = c3db.commits.length + c3payload.commits.length ∧
      db2.commits.take c3db.commits.length = c3db.commits ∧
      (∀ r ∈ db2.commits.drop c3db.commits.length,
        r.post_id = some c3db.nextPostId) :=
  affirmative_creates_post [107] [] _ c3payload c3orc c3db c3db1 "dev" "u1" c3ids
    ("shipped auth!".trim)
    (by intro r hr; simp [c3db] at hr)
    (verify_genuine [] [107] (by decide))
    (by rfl) (by rfl) (by simp [c3payload]) (by rfl) (by decide) (by rfl) (by rfl)
    (by rfl) (by rfl) (by rfl)

/-- Counterexample to C8 as stated: in the variant with the private-repository
policy, an authenticated push to `refs/heads/develop` whose repository object
lacks the `private` field is skipped by the visibility filter first, so the
response is the private-repository skip — its `ref` field is absent, against
the claim that the skip response carries the offending ref.  (No store calls
are made either way.) -/
theorem branch_skip_counterexample :
    github_webhook [107] (some ("sha256=" ++ hexOfBytes (hmacSha256 [107] []))) []
      { ref := some "refs/heads/develop", repo_private := none,
        repo_full_name := none, repo_id := none, repo_name := none,
        repo_pushed_at := none, commits := [], sender_login := none }
      { insertCommitsOk := true, insertPostOk := true, apiKey := none,
        judgeCollab := fun _ => .error "x", jsonLoads := fun _ => .error "x",
        summarizeCollab := fun _ => .error "x" }
      { profiles := [], commits := [], posts := [], nextCommitId := 0, nextPostId := 0 } =
      (.ok { message := "Skipped - private repository", repository := some "unknown" },
       { profiles := [], commits := [], posts := [], nextCommitId := 0, nextPostId := 0 }) ∧
    ({ message := "Skipped - private repository", repository := some "unknown" : Resp }).ref
      = none := by
  have hv := verify_genuine [] [107] (by decide)
  exact ⟨by simp [github_webhook, hv], rfl⟩

/-- Claim C8 (amended): an authenticated push whose ref is not the designated
branch is skipped with no store calls; the skip response carries the
`"Skipped - not a push to main branch"` message and the offending ref
whenever the branch filter is the one that fires — always in the variant
without the visibility policy, and for public repositories in the variant
with it; a push filtered by the visibility policy first gets the
private-repository skip (without the ref), equally with no store calls. -/
theorem branch_skip_response :
    (∀ (secret body : List Nat) (sig : String) (payload : Payload) (orc : Oracle) (db : DB),
      verify_github_signature body sig secret = .ok true →
      payload.ref ≠ some "refs/heads/main" →
      main_github_webhook secret (some sig) body payload orc db =
        (.ok { message := "Skipped - not a push to main branch", ref := some payload.ref },
         db)) ∧
    (∀ (secret body : List Nat) (sig : String) (payload : Payload) (orc : Oracle) (db : DB),
      verify_github_signature body sig secret = .ok true →
      payload.repo_private = some false →
      payload.ref ≠ some "refs/heads/main" →
      github_webhook secret (some sig) body payload orc db =
        (.ok { message := "Skipped - not a push to main branch", ref := some payload.ref },
         db)) ∧
    (∀ (secret body : List Nat) (sig : String) (payload : Payload) (orc : Oracle) (db : DB),
      verify_github_signature body sig secret = .ok true →
      payload.repo_private.getD true = true →
      github_webhook secret (some sig) body payload orc db =
        (.ok { message := "Skipped - private repository",
               repository := some (payload.repo_full_name.getD "unknown") }, db)) := by
  refine ⟨?_, ?_, ?_⟩
  · intro secret body sig payload orc db hver hne
    simp [main_github_webhook, hver, hne]
  · intro secret body sig payload orc db hver hpriv hne
    simp [github_webhook, hver, hpriv, hne]
  · intro secret body sig payload orc db hver hpriv
    simp [github_webhook, hver, hpriv]

/-- Witness for the amended C8: a concrete signed push to
`refs/heads/develop` (public repository) gets the branch skip with the ref,
in both variants, with the store untouched. -/
theorem branch_skip_response_witness :
    main_github_webhook [107] (some ("sha256=" ++ hexOfBytes (hmacSha256 [107] []))) []
      { ref := some "refs/heads/develop", repo_private := some false,
        repo_full_name := none, repo_id := none, repo_name := none,
        repo_pushed_at := none, commits := [], sender_login := none }
      { insertCommitsOk := true, insertPostOk := true, apiKey := none,
        judgeCollab := fun _ => .error "x", jsonLoads := fun _ => .error "x",
        summarizeCollab := fun _ => .error "x" }
      { profiles := [], commits := [], posts := [], nextCommitId := 0, nextPostId := 0 } =
      (.ok { message := "Skipped - not a push to main branch",
             ref := some (some "refs/heads/develop") },
       { profiles := [], commits := [], posts := [], nextCommitId := 0, nextPostId := 0 }) ∧
    github_webhook [107] (some ("sha256=" ++ hexOfBytes (hmacSha256 [107] []))) []
      { ref := some "refs/heads/develop", repo_private := some false,
        repo_full_name := none, repo_id := none, repo_name := none,
        repo_pushed_at := none, commits := [], sender_login := none }
      { insertCommitsOk := true, insertPostOk := true, apiKey := none,
        judgeCollab := fun _ => .error "x", jsonLoads := fun _ => .error "x",
        summarizeCollab := fun _ => .error "x" }
      { profiles := [], commits := [], posts := [], nextCommitId := 0, nextPostId := 0 } =
      (.ok { message := "Skipped - not a push to main branch",
             ref := some (some "refs/heads/develop") },
       { profiles := [], commits := [], posts := [], nextCommitId := 0, nextPostId := 0 }) :=
  ⟨branch_skip_response.1 [107] [] _ _ _ _ (verify_genuine [] [107] (by decide))
    (by decide),
   branch_skip_response.2.1 [107] [] _ _ _ _ (verify_genuine [] [107] (by decide))
    (by rfl) (by decide)⟩

end Crax
